import Mathlib

/-!
Verification of the PolyDAQ 2 SD-card data-logging pipeline
(repository `Gorplex/FurutaPendulum`, directory `STM32_ME507_PolyDAQ_Files`).

The C++ sources are shallowly embedded:
* machine integers become `Nat`/`Int` (with explicit wraparound where the C
  code can overflow);
* the ELM FatFs file handle becomes a pure `FatFile` record (byte content plus
  read/write position); `f_read`, `f_lseek`, `f_tell`, `f_eof` act on it and,
  on the model's error-free medium, always succeed (`FR_OK`);
* IEEE-754 `float` values are embedded as exact rationals (`Rat`) where the
  claims concern data flow, and as raw 32-bit patterns (`Nat < 2^32`) where a
  claim concerns the exact characters emitted by `emstream::operator<<(float)`;
* each cooperative task's `run` loop is embedded as a step function on an
  explicit state record, driven by an environment record holding the values
  the hardware returns during that cycle (card detect, mount result, ...).
-/

/-! ## FatFs result codes

Numeric values of the `FRESULT` enum from ELM FatFs `ff.h` (the FatFs library
itself is an external collaborator, not part of the repository).  Only
`FR_OK = 0` (C truthiness tests `if (dir_file_result)`) and the distinctness
of the codes matter to the embedded code. -/

/-- Result code `FR_OK` (0): success. -/
def FR_OK : Nat := 0

/-- Result code `FR_DISK_ERR` (1): low-level disk error. -/
def FR_DISK_ERR : Nat := 1

/-- Result code `FR_INT_ERR` (2): internal error. -/
def FR_INT_ERR : Nat := 2

/-- Result code `FR_NOT_READY` (3): drive not ready / not mounted. -/
def FR_NOT_READY : Nat := 3

/-- Result code `FR_NO_FILE` (4): file not found. -/
def FR_NO_FILE : Nat := 4

/-! ## FatFs file handle (read side)

`sd_card` keeps one `FIL the_file`; for the reading methods the relevant state
of that handle is the byte content of the open file and the read pointer. -/

/-- Model of an ELM FatFs `FIL` object opened on a file: the file's bytes and
the current file pointer `fptr`. -/
structure FatFile where
  content : List Char
  pos : Nat
deriving DecidableEq, Repr

/-- Model of FatFs `f_eof`: true when the file pointer has reached the file
size. -/
def f_eof (f : FatFile) : Bool := f.content.length ≤ f.pos

/-- Model of FatFs `f_tell`: the current file pointer. -/
def f_tell (f : FatFile) : Nat := f.pos

/-- Model of FatFs `f_lseek`: move the file pointer; on the error-free medium
it returns `FR_OK`. -/
def f_lseek (f : FatFile) (p : Nat) : FatFile := { f with pos := p }

/-- Model of FatFs `f_read` with a one-byte buffer: returns the byte read, the
`bytes_read` count (0 at end of file, 1 otherwise) and the advanced handle.
On the error-free medium the result code is `FR_OK`. -/
def f_read1 (f : FatFile) : Char × Nat × FatFile :=
  if f.pos < f.content.length then
    (f.content.getD f.pos '\x00', 1, { f with pos := f.pos + 1 })
  else
    ('\x00', 0, f)

/-! ## sd_card reading methods (`sdio_card.cpp`) -/

/-- State of an `sd_card` driver object as used by its reading methods:
the `mounted` flag, the latched `dir_file_result` status, and the open file
handle `the_file`. -/
structure SdCardRead where
  mounted : Bool
  dir_file_result : Nat
  the_file : FatFile
deriving DecidableEq, Repr

/-- Embedding of `sd_card::getchar` (sdio_card.cpp:236-254): returns 0 when
the card is unmounted, an error is latched, or the file is at end of file;
otherwise reads one byte with `f_read`, latches the result code, and returns
0 unless exactly one byte was read. -/
def sd_card.getchar (s : SdCardRead) : Char × SdCardRead :=
  if ¬ s.mounted ∨ s.dir_file_result ≠ FR_OK ∨ f_eof s.the_file then
    ('\x00', s)
  else
    let r := f_read1 s.the_file
    let s1 : SdCardRead := { s with dir_file_result := FR_OK, the_file := r.2.2 }
    if r.2.1 ≠ 1 then ('\x00', s1) else (r.1, s1)

/-- Embedding of `sd_card::peek` (sdio_card.cpp:267-288): like `getchar`, but
after a successful one-byte read it moves the file pointer back with
`f_lseek (f_tell - 1)` so the byte can be read again.  Unlike `getchar` it
does not test `f_eof` first; at end of file the `bytes_read != 1` test makes
it return 0. -/
def sd_card.peek (s : SdCardRead) : Char × SdCardRead :=
  if ¬ s.mounted ∨ s.dir_file_result ≠ FR_OK then
    ('\x00', s)
  else
    let r := f_read1 s.the_file
    let s1 : SdCardRead := { s with dir_file_result := FR_OK, the_file := r.2.2 }
    if r.2.1 ≠ 1 then ('\x00', s1)
    else
      let s2 : SdCardRead :=
        { s1 with the_file := f_lseek s1.the_file (f_tell s1.the_file - 1),
                  dir_file_result := FR_OK }
      (r.1, s2)

/-! ## Character-stream view used by the configuration parser

`logger_config` reads the configuration file through `sd_card::getchar`,
`sd_card::peek` and `sd_card::eof`.  On a mounted card with no latched error
(the state in which `logger_config::read` runs after a successful
`open_file_readonly`), those methods reduce to operations on the unread
suffix of the file: `getchar` pops the next byte (returning 0 when none is
left), `peek` looks at it without popping, and `eof` tests emptiness.  The
parser is therefore embedded over that suffix, a `List Char`.  A NUL byte in
the file is indistinguishable from end of stream to the C code (both make
`getchar` return 0), and the model shares that behaviour. -/

/-- Stream view of `sd_card::getchar`: pop the next byte, or return 0 at end
of stream. -/
def stream_getchar (s : List Char) : Char × List Char :=
  match s with
  | [] => ('\x00', [])
  | c :: rest => (c, rest)

/-- Stream view of `sd_card::peek`: the next byte without consuming it, or 0
at end of stream. -/
def stream_peek (s : List Char) : Char :=
  match s with
  | [] => '\x00'
  | c :: _ => c

/-- Stream view of `sd_card::eof`. -/
def stream_eof (s : List Char) : Bool := s.isEmpty

/-! ## emstream input operators used by the parser (`emstream_float.cpp`)

IEEE-754 single-precision values are embedded as exact rationals: the parse
accumulates digit values with exact arithmetic where the C code uses `float`
operations (rounding is not modelled). -/

/-- Embedding of the leading do-while loop of `emstream::operator>>(float&)`
(emstream_float.cpp:269-278): consume characters until a decimal digit is
consumed, remembering whether a '-' was seen anywhere before it.  Returns the
digit, the negative flag, and the rest of the stream.  At end of stream the C
loop would spin forever on the 0 returned by `getchar` (the program hangs and
never produces a value); the model returns with digit 0 and the empty
stream. -/
def float_skip : List Char → Bool → Bool × Char × List Char
  | [], neg => (neg, '\x00', [])
  | c :: rest, neg =>
      let neg2 := if c = '-' then true else neg
      if '0'.toNat ≤ c.toNat ∧ c.toNat ≤ '9'.toNat then (neg2, c, rest)
      else float_skip rest neg2

/-- Embedding of the integer-part loop of `emstream::operator>>(float&)`
(emstream_float.cpp:285-302): `peek` at the next character; a backspace
(ASCII 127 or 8) divides the accumulated value by 10, a digit appends itself,
anything else (including end of stream, where `peek` yields 0) ends the
loop without consuming the character. -/
def float_int_loop : List Char → Rat → Rat × List Char
  | [], v => (v, [])
  | c :: rest, v =>
      if c.toNat = 127 ∨ c.toNat = 8 then float_int_loop rest (v / 10)
      else if c.toNat < '0'.toNat ∨ '9'.toNat < c.toNat then (v, c :: rest)
      else float_int_loop rest (v * 10 + ((c.toNat - '0'.toNat : Nat) : Rat))

/-- Embedding of the fractional-part loop of `emstream::operator>>(float&)`
(emstream_float.cpp:311-328): like the integer loop but each digit is scaled
by a decreasing power of ten (`fraction_order`, starting at 1/10); a
backspace divides the value by 10 without touching the order. -/
def float_frac_loop : List Char → Rat → Rat → Rat × List Char
  | [], v, _ => (v, [])
  | c :: rest, v, ord =>
      if c.toNat = 127 ∨ c.toNat = 8 then float_frac_loop rest (v / 10) ord
      else if c.toNat < '0'.toNat ∨ '9'.toNat < c.toNat then (v, c :: rest)
      else float_frac_loop rest (v + ((c.toNat - '0'.toNat : Nat) : Rat) * ord) (ord / 10)

/-- Embedding of `emstream::operator>>(float&)` (emstream_float.cpp:263-342):
skip to the first digit (noting any '-'), read the integer part, then, if the
next character is '.', consume it and read the fractional part; finally apply
the sign. -/
def parse_float (s : List Char) : Rat × List Char :=
  let r1 := float_skip s false
  let v0 : Rat := ((r1.2.1.toNat - '0'.toNat : Nat) : Rat)
  let r2 := float_int_loop r1.2.2 v0
  let r3 :=
    match r2.2 with
    | c :: rest => if c = '.' then float_frac_loop rest r2.1 (1 / 10) else (r2.1, c :: rest)
    | [] => (r2.1, [])
  (if r1.1 then -r3.1 else r3.1, r3.2)

/-- Modelled from the spec: `emstream::operator>>(uint16_t&)` is declared in
emstream.h:437 but its definition (emstream.cpp, with `cin_uint_convert`) is
not among the repository's source files.  Following §4.1 of the spec ("a line
beginning with a period tag is followed by an integer giving milliseconds per
sample row") it is modelled like the float reader's integer phase: skip
characters until a digit, then accumulate decimal digits, truncating the
result to 16 bits. -/
def uint_digit_loop : List Char → Nat → Nat × List Char
  | [], v => (v, [])
  | c :: rest, v =>
      if '0'.toNat ≤ c.toNat ∧ c.toNat ≤ '9'.toNat then
        uint_digit_loop rest (v * 10 + (c.toNat - '0'.toNat))
      else (v, c :: rest)

/-- Modelled from the spec: see `uint_digit_loop`.  Reads an unsigned 16-bit
integer from the stream. -/
def parse_uint16 (s : List Char) : Nat × List Char :=
  let s1 := s.dropWhile (fun c => ¬ ('0'.toNat ≤ c.toNat ∧ c.toNat ≤ '9'.toNat))
  let r := uint_digit_loop s1 0
  (r.1 % 65536, r.2)

/-! ## Column configuration parser (`logger_config.cpp`) -/

/-- Maximum length of a column label (logger_config.h:63). -/
def MAX_COL_LABEL_LEN : Nat := 24

/-- Tick rate of the RTOS (FreeRTOSConfig_cheng.h:114). -/
def configTICK_RATE_HZ : Nat := 3360

/-- One sensor line of the configuration file (`logger_col_cfg`,
logger_config.h:82-109), with the defaults set by its constructor.  `slope`
and `offset` are `float` in C, embedded as exact rationals; the label is the
byte string the parser copied out. -/
structure LoggerColCfg where
  command : Char := '0'
  slope : Rat := 1
  offset : Rat := 0
  p_label : List Char := []
deriving DecidableEq, Repr

/-- Embedding of the separator-skipping loop of
`logger_config::read_channel_config` (logger_config.cpp:202-205): `peek` at
the next character and consume it while it is a space, tab or colon. -/
def skip_seps : List Char → List Char
  | [] => []
  | c :: rest => if c = ' ' ∨ c = '\t' ∨ c = ':' then skip_seps rest else c :: rest

/-- Embedding of the opening-quote search of
`logger_config::read_channel_config` (logger_config.cpp:213-215): consume
characters until a '"' or '\'' has been consumed, or until `getchar` returns
0 (end of stream, or a NUL byte, which is itself consumed). -/
def seek_quote : List Char → List Char
  | [] => []
  | c :: rest => if c = '"' ∨ c = '\'' ∨ c = '\x00' then rest else seek_quote rest

/-- Characters that end the label-copying loop of
`logger_config::read_channel_config` (logger_config.cpp:222): carriage
return, line feed, either quote, or the 0 that `getchar` yields at end of
stream. -/
def is_label_end (c : Char) : Bool :=
  c = '\r' ∨ c = '\n' ∨ c = '"' ∨ c = '\'' ∨ c = '\x00'

/-- Embedding of the label-copying loop of
`logger_config::read_channel_config` (logger_config.cpp:218-231): read up to
`MAX_COL_LABEL_LEN` characters into the buffer, stopping early (and
consuming the terminator) when a terminating character is read.  The first
argument counts the remaining buffer capacity. -/
def read_label : Nat → List Char → List Char × List Char
  | 0, s => ([], s)
  | _ + 1, [] => ([], [])
  | n + 1, c :: rest =>
      if is_label_end c then ([], rest)
      else
        let r := read_label n rest
        (c :: r.1, r.2)

/-- Embedding of `logger_config::read_channel_config`
(logger_config.cpp:190-248): skip separators, read the command character
(`operator>>(char&)` is `getchar`), read slope and offset with the float
reader, find the opening quote, and copy the label.  The resulting column
descriptor is what the caller appends to the configuration's column list. -/
def read_channel_config (s : List Char) : LoggerColCfg × List Char :=
  let s1 := skip_seps s
  let r2 := stream_getchar s1
  let r3 := parse_float r2.2
  let r4 := parse_float r3.2
  let s5 := seek_quote r4.2
  let r6 := read_label MAX_COL_LABEL_LEN s5
  ({ command := r2.1, slope := r3.1, offset := r4.1, p_label := r6.1 }, r6.2)

/-- Stream position at which the label-copying loop of
`read_channel_config` starts: after the separators, the command character,
the two numbers, and the opening quote. -/
def label_source (s : List Char) : List Char :=
  seek_quote (parse_float (parse_float (stream_getchar (skip_seps s)).2).2).2

/-- State of a `logger_config` object (logger_config.h:151-274): the validity
flag, tick and millisecond sample periods, and the ordered column list.  The
constructor leaves `ms_per_reading` uninitialized in C; the model starts it
at 0. -/
structure LoggerConfigState where
  config_valid : Bool
  ticks_per_reading : Nat
  ms_per_reading : Nat
  cols : List LoggerColCfg
deriving DecidableEq, Repr

/-- State of a freshly constructed `logger_config`
(logger_config.cpp:42-53). -/
def logger_config_init : LoggerConfigState :=
  { config_valid := false, ticks_per_reading := 100, ms_per_reading := 0, cols := [] }

/-- Embedding of `logger_config::clear` (logger_config.cpp:258-279): reset
the validity flag, the default tick rate, and the column list
(`MMANG_ALLOWS_DELETION` is undefined, so the old nodes are merely
unlinked). -/
def logger_config.clear (cfg : LoggerConfigState) : LoggerConfigState :=
  { cfg with config_valid := false, ticks_per_reading := 100, cols := [] }

/-- Embedding of the body of `logger_config::read_line`
(logger_config.cpp:102-180): a fueled loop; each iteration tests `eof`, pops
one character, exits when it is a newline, ignores carriage returns, and
otherwise feeds the line-reading state machine (`rl_state`): state 0
dispatches on the first character ('T' → period line, 'C' → channel line,
blank → stay, other → comment state 9), state 1 reads the sample period,
state 2 reads a channel configuration, state 9 skips.  Returns the updated
configuration, the rest of the stream, and the C function's boolean result
(more data to read).  Each iteration consumes at least one character, so
fuel `s.length + 1` always suffices; the fuel-exhausted case is
unreachable. -/
def read_line_loop : Nat → Nat → LoggerConfigState → List Char →
    LoggerConfigState × List Char × Bool
  | 0, _, cfg, s => (cfg, s, ¬ stream_eof s)
  | fuel + 1, st, cfg, s =>
      if stream_eof s then (cfg, s, false)
      else
        let r := stream_getchar s
        if r.1 = '\n' then (cfg, r.2, ¬ stream_eof r.2)
        else if r.1 = '\r' then read_line_loop fuel st cfg r.2
        else
          match st with
          | 0 =>
              if r.1 = 'T' then read_line_loop fuel 1 cfg r.2
              else if r.1 = 'C' then read_line_loop fuel 2 cfg r.2
              else if r.1 = ' ' ∨ r.1 = '\t' then read_line_loop fuel 0 cfg r.2
              else read_line_loop fuel 9 cfg r.2
          | 1 =>
              let rm := parse_uint16 r.2
              read_line_loop fuel 9
                { cfg with ms_per_reading := rm.1,
                           ticks_per_reading :=
                             rm.1 * configTICK_RATE_HZ / 1000 % 65536 } rm.2
          | 2 =>
              let rc := read_channel_config r.2
              read_line_loop fuel 9 { cfg with cols := cfg.cols ++ [rc.1] } rc.2
          | _ => read_line_loop fuel st cfg r.2

/-- Embedding of the `while (read_line ()) {}` loop of
`logger_config::read` (logger_config.cpp:79-81), fueled like
`read_line_loop`. -/
def read_lines : Nat → LoggerConfigState → List Char → LoggerConfigState × List Char
  | 0, cfg, s => (cfg, s)
  | fuel + 1, cfg, s =>
      let r := read_line_loop (s.length + 1) 0 cfg s
      if r.2.2 then read_lines fuel r.1 r.2.1 else (r.1, r.2.1)

/-- Embedding of `logger_config::read` (logger_config.cpp:63-91).  The open
attempt is modelled by its observable outcome: `none` when
`open_file_readonly` fails (the C function returns immediately, leaving every
member untouched), `some content` when the file opens with the given bytes.
On success the validity flag is cleared, the configuration is cleared, every
line is read, and the flag is finally set to true (the close result only
feeds a debug printout). -/
def logger_config.read (cfg : LoggerConfigState) (openResult : Option (List Char)) :
    LoggerConfigState :=
  match openResult with
  | none => cfg
  | some content =>
      let c1 := logger_config.clear { cfg with config_valid := false }
      let c2 := (read_lines (content.length + 1) c1 content).1
      { c2 with config_valid := true }

/-! ## emstream output operators (`emstream_int64_t.cpp`, `emstream_float.cpp`)

The writing side of `emstream` turns numbers into characters.  The claims
about it concern the exact bytes emitted, and `operator<<(float)` (non-AVR
branch) works on the raw IEEE-754 bit pattern with integer arithmetic only,
so it is embedded bit-exactly over `bits : Nat` (the 32-bit pattern). -/

/-- Digit character table lookup `EMSTR_ASCII_CHARS[15 + d]`
(emstream.h:150): digits 0-15 map to '0'-'9' and 'A'-'F'.  An index past the
table is out-of-bounds in C (unreachable in base 10 with a nonnegative
value); the model returns '0' there. -/
def emstr_digit : Nat → Char
  | 0 => '0' | 1 => '1' | 2 => '2' | 3 => '3' | 4 => '4'
  | 5 => '5' | 6 => '6' | 7 => '7' | 8 => '8' | 9 => '9'
  | 10 => 'A' | 11 => 'B' | 12 => 'C' | 13 => 'D' | 14 => 'E' | 15 => 'F'
  | _ => '0'

/-- Embedding of the digit-extraction do-while loop of
`emstream::operator<<(int64_t)` (emstream_int64_t.cpp:53-58) in base 10 for a
nonnegative value (the float printer's integer part, the only caller
embedded here, is nonnegative): least-significant digit first. -/
def emstream_digits_rev (n : Nat) : List Char :=
  if h : n < 10 then [emstr_digit n]
  else emstr_digit (n % 10) :: emstream_digits_rev (n / 10)
decreasing_by exact Nat.div_lt_self (by omega) (by omega)

/-- Embedding of `emstream::operator<<(int64_t)` (emstream_int64_t.cpp:47-71)
in base 10 for a nonnegative value: the extracted digits are emitted in
reverse (most-significant first). -/
def emstream_print_int (n : Nat) : List Char := (emstream_digits_rev n).reverse

/-- Embedding of the fraction loop of `emstream::operator<<(float)`
(emstream_float.cpp:184-189): `precision` times, multiply the 24-bit fixed
point fraction by 10, emit the overflow above bit 24 as a digit character
(`(frac_part >> 24) + '0'`), and keep the low 24 bits. -/
def float_frac_digits : Nat → Nat → List Char
  | 0, _ => []
  | p + 1, frac =>
      let f10 := frac * 10
      Char.ofNat ((f10 >>> 24) + '0'.toNat) :: float_frac_digits p (f10 % 2 ^ 24)

/-- Embedding of `emstream::operator<<(float)` (emstream_float.cpp:59-194,
non-AVR branch), operating on the raw 32-bit pattern `bits` of the number:
special cases for NaN/infinity (biased exponent 255), zero and denormals
(biased exponent 0, printed as "0.0" / "0.00"), and exponents below -23
("tiny"); otherwise sign, integer part (via the int64 printer; '0' when
zero), '.', and `prec` fraction digits ('0' when the fraction is zero).
The C shifts overflow for large exponents (`int_part = mantissa << (exp2 -
23)` exceeds `int64_t`, undefined behaviour); the model reduces them modulo
2^64.  No claim depends on the digits those overflowing patterns produce,
only on the characters being sign/digit/dot characters. -/
def float_body (prec : Nat) (neg : Bool) (int_part frac_part : Nat) : List Char :=
  (if neg then ['-'] else []) ++
  (if int_part = 0 then ['0'] else emstream_print_int int_part) ++
  ['.'] ++
  (if frac_part = 0 then ['0'] else float_frac_digits prec frac_part)

/-- Biased exponent field of the bit pattern: `(bits >> 23) & 0xFF`. -/
def float_exp2 (bits : Nat) : Nat := bits >>> 23 % 256

/-- Mantissa with the implicit leading 1:
`(bits & 0xFFFFFF) | 0x800000` (emstream_float.cpp:142). -/
def float_mantissa (bits : Nat) : Nat := (bits % 2 ^ 24) ||| 2 ^ 23

/-- Integer part of the value, per the exponent branches of
emstream_float.cpp:146-159; the first branch overflows `int64_t` in C for
large exponents (undefined behaviour), modelled as reduction modulo 2^64. -/
def float_int_part (bits : Nat) : Nat :=
  let e : Int := (float_exp2 bits : Int) - 127
  if 23 ≤ e then (float_mantissa bits <<< (e - 23).toNat) % 2 ^ 64
  else if 0 ≤ e then float_mantissa bits >>> (23 - e).toNat
  else 0

/-- Fractional part (24-bit fixed point) of the value, per the exponent
branches of emstream_float.cpp:146-161; the left shift is truncated to the
low 24 bits as by the C `& 0xFFFFFF`. -/
def float_frac_part (bits : Nat) : Nat :=
  let e : Int := (float_exp2 bits : Int) - 127
  if 23 ≤ e then 0
  else if 0 ≤ e then (float_mantissa bits <<< (e + 1).toNat) % 2 ^ 24
  else (float_mantissa bits % 2 ^ 24) >>> (-(e + 1)).toNat

def emstream_print_float (prec : Nat) (bits : Nat) : List Char :=
  if float_exp2 bits = 255 then
    (if bits % 2 ^ 23 ≠ 0 then ['N', 'a', 'N'] else ['i', 'n', 'f'])
  else if float_exp2 bits = 0 then
    (if bits % 2 ^ 23 ≠ 0 then ['0', '.', '0', '0'] else ['0', '.', '0'])
  else if ((float_exp2 bits : Int) - 127) < -23 then ['t', 'i', 'n', 'y']
  else
    float_body prec (decide (2 ^ 31 ≤ bits)) (float_int_part bits) (float_frac_part bits)

/-! ## CSV line production (`task_sd_card.cpp`, `task_sd_daq.cpp`) -/

/-- Embedding of the column loop of `task_sd_card::write_header`
(task_sd_card.cpp:295-300): for each column of the linked list, in order,
emit a comma and the label wrapped in double quotes. -/
def header_cols : List LoggerColCfg → List Char
  | [] => []
  | col :: rest => ',' :: '"' :: (col.p_label ++ ('"' :: header_cols rest))

/-- Embedding of `task_sd_card::write_header` (task_sd_card.cpp:283-303):
when the shared configuration pointer is null nothing is written; otherwise
the line is "Time", the quoted labels comma-prefixed in column order, and a
newline. -/
def write_header (cfg : Option LoggerConfigState) : List Char :=
  match cfg with
  | none => []
  | some c => ['T', 'i', 'm', 'e'] ++ header_cols c.cols ++ ['\n']

/-- Embedding of the column loop of `task_sd_daq::acquire_sd_data`
(task_sd_daq.cpp:76-84): for each column of the list, in order, read one raw
value with the column's command character (`my_poly->get_data`, an external
collaborator, embedded as the function `get_data : Char → Int` returning the
`int16_t` reading), compute `(float)data * slope + offset` in the FPU, and
emit a comma followed by the printed value.  The single-precision
multiply-add itself is the uninterpreted parameter
`fpu : Int → Rat → Rat → Nat`, mapping the raw value and the column's exact
slope and offset to the 32-bit pattern of the computed float; the claims
concern which inputs it is applied to and where its printed output goes,
not IEEE rounding. -/
def acquire_cols (get_data : Char → Int) (fpu : Int → Rat → Rat → Nat)
    (prec : Nat) : List LoggerColCfg → List Char
  | [] => []
  | col :: rest =>
      ',' :: (emstream_print_float prec (fpu (get_data col.command) col.slope col.offset)
        ++ acquire_cols get_data fpu prec rest)

/-- Embedding of `task_sd_daq::acquire_sd_data` (task_sd_daq.cpp:64-89): the
row written to the SD-card text queue is the printed tick timestamp
(`get_tick_time()` returns a float whose bit pattern is the parameter
`tickBits`; its definition lives in the FreeRTOS C++ wrapper library outside
the repository), the comma-prefixed calibrated values in column order, and
the line terminator `DAQ_EOL = '\n'` (task_sd_daq.h:49).  The LED command
queue writes ('Y'/'N') do not touch the text queue and are not modelled. -/
def acquire_sd_data (get_data : Char → Int) (fpu : Int → Rat → Rat → Nat)
    (prec : Nat) (tickBits : Nat) (cols : List LoggerColCfg) : List Char :=
  emstream_print_float prec tickBits ++ acquire_cols get_data fpu prec cols ++ ['\n']

/-- Comma-separated field count of one CSV line, honouring CSV double-quote
quoting (a comma between double quotes does not separate fields, which is how
the quoted labels emitted by `write_header` are to be read back); counting
stops at the newline that ends the line.  The Boolean argument tracks
whether the scan is inside quotes. -/
def csv_fields : List Char → Bool → Nat
  | [], _ => 1
  | c :: rest, inq =>
      if c = '\n' then 1
      else if c = '"' then csv_fields rest (! inq)
      else if c = ',' then (if inq then csv_fields rest inq else 1 + csv_fields rest inq)
      else csv_fields rest inq

/-- Field count of the line starting at the head of the character list. -/
def fieldsOf (l : List Char) : Nat := csv_fields l false

/-- Concrete configuration used as a witness input: the spec's §8 example,
two columns with commands '0' and '1', calibrations (1, 0) and (2, -5),
labels "RawA" and "RawB", 100 ms per sample. -/
def demo_config : LoggerConfigState :=
  { config_valid := true, ticks_per_reading := 336, ms_per_reading := 100,
    cols := [{ command := '0', slope := 1, offset := 0,
               p_label := ['R', 'a', 'w', 'A'] },
             { command := '1', slope := 2, offset := -5,
               p_label := ['R', 'a', 'w', 'B'] }] }

/-! ## sd_card writing methods (`sdio_card.cpp`) and the card task

State of the `sd_card` driver as used by the writing path: the `mounted`
flag, the latched `dir_file_result`, the bytes already passed to `f_write`
for the open file, and the driver's own sector buffer `p_buffer` (whose fill
level is `chars_in_buffer`).  `syncs` counts the `f_sync` calls performed, to
make flushes observable.  The buffer capacity `SD_SECTORS_TO_WRITE * _MAX_SS`
(sdio_card.h:85 gives `SD_SECTORS_TO_WRITE = 16`; `_MAX_SS` comes from the
FatFs configuration, which is not in the repository — 512 for standard
cards) is the parameter `cap`.  `f_write` and `f_sync` succeed on the
model's error-free medium. -/
structure SdCardWrite where
  mounted : Bool
  dir_file_result : Nat
  file_bytes : List Char
  buffer : List Char
  syncs : Nat
deriving DecidableEq, Repr

/-- State of a freshly constructed `sd_card` (sdio_card.cpp:126-142):
unmounted, `FR_NOT_READY` latched so nothing can be written, empty buffer. -/
def sd_card_init : SdCardWrite :=
  { mounted := false, dir_file_result := FR_NOT_READY, file_bytes := [],
    buffer := [], syncs := 0 }

/-- Embedding of `sd_card::ready_to_send` (sdio_card.cpp:153-156). -/
def sd_card.ready_to_send (sd : SdCardWrite) : Bool :=
  sd.mounted && (sd.dir_file_result == 0)

/-- Embedding of `sd_card::putchar` (sdio_card.cpp:168-208): discard the
character unless a card is mounted with a file open; otherwise append it to
the sector buffer and, when the buffer reaches `SD_SECTORS_TO_WRITE *
_MAX_SS` characters, `f_write` the whole buffer, `f_sync`, and empty it. -/
def sd_card.putchar (cap : Nat) (sd : SdCardWrite) (c : Char) : SdCardWrite :=
  if ¬ sd_card.ready_to_send sd then sd
  else
    let buf2 := sd.buffer ++ [c]
    if cap ≤ buf2.length then
      { sd with file_bytes := sd.file_bytes ++ buf2, buffer := [],
                dir_file_result := FR_OK, syncs := sd.syncs + 1 }
    else { sd with buffer := buf2 }

/-- Embedding of `sd_card::transmit_now` (sdio_card.cpp:298-321): nothing
happens without a mounted card, with a latched error, or with an empty
buffer; otherwise the buffer is written out, emptied, and `f_sync` commits
it. -/
def sd_card.transmit_now (sd : SdCardWrite) : SdCardWrite :=
  if ¬ sd.mounted ∨ sd.dir_file_result ≠ FR_OK ∨ sd.buffer.length = 0 then sd
  else
    { sd with file_bytes := sd.file_bytes ++ sd.buffer, buffer := [],
              dir_file_result := FR_OK, syncs := sd.syncs + 1 }

/-- Embedding of `sd_card::mount` (sdio_card.cpp:333-347) by its outcome
`ok`: on success the card is mounted with `FR_OK` latched, on failure it is
left unmounted with the error latched (`FR_DISK_ERR` standing for the
nonzero `f_mount` result). -/
def sd_card.mount (ok : Bool) (sd : SdCardWrite) : SdCardWrite :=
  if ok then { sd with mounted := true, dir_file_result := FR_OK }
  else { sd with mounted := false, dir_file_result := FR_DISK_ERR }

/-- Embedding of `sd_card::unmount` (sdio_card.cpp:358-369): the FatFs
un-mount succeeds on the error-free medium and the `mounted` flag is
cleared.  (It does not write the driver's own `p_buffer` out.) -/
def sd_card.unmount (sd : SdCardWrite) : SdCardWrite :=
  { sd with mounted := false, dir_file_result := FR_OK }

/-- Writing a character sequence through `putchar`, as the `emstream` `<<`
operators do (emstream's non-virtual `puts` loops over `putchar`; its
source file is outside the repository tree). -/
def sd_putchars (cap : Nat) (sd : SdCardWrite) (chars : List Char) : SdCardWrite :=
  chars.foldl (sd_card.putchar cap) sd

/-- Preamble written to a fresh data file (task_sd_card.cpp:210-212): text,
the configured ms-per-sample (printed like the other integers), " ms", and
`endl` = CR LF (emstream.h:87). -/
def data_file_preamble (ms : Nat) : List Char :=
  ("PolyDAQ 2 data file, samples at ".toList) ++ emstream_print_int ms ++
    (" ms".toList) ++ ['\r', '\n']

/-! ## Card Logging State Machine (`task_sd_card.cpp`)

The `run` method's infinite `for (;;)` loop executes one `switch` dispatch
per iteration; one iteration is one cycle of the machine.  Everything the
hardware and collaborators decide during a cycle is collected in
`SdTaskEnv`: whether `SD_Detect()` sees a card, whether `mount()` succeeds,
the outcome of opening the configuration file and its bytes (for
`logger_config::read`), the number returned by `open_new_data_file` together
with the open's result code, and the characters sitting in the SD-card text
queue when state 4 drains it.  LED-queue writes and `delay_ms` calls have no
effect on the modelled state and are not recorded. -/
structure SdTaskEnv where
  card_present : Bool
  mount_ok : Bool
  read_config : Option (List Char)
  fnum : Nat
  open_result : Nat
  queue : List Char
deriving DecidableEq, Repr

/-- State owned by `task_sd_card::run` between cycles: the TaskBase `state`
number (0, 1, 2, 3, 4 or 9), the `logger_config` object `*p_logconf`, the
shared pointer `p_logger_config` (a `TaskShare<logger_config*>`, `none` for
NULL), and the `sd_card` driver object. -/
structure SdTaskState where
  state : Nat
  p_logconf : LoggerConfigState
  p_logger_config : Option LoggerConfigState
  sd : SdCardWrite
deriving DecidableEq, Repr

/-- Start-of-run state: `main.cpp:190` puts NULL into the share before the
scheduler starts, TaskBase begins every task in state 0 (the FreeRTOS C++
wrapper that defines TaskBase is outside the repository; the state diagram
in task_sd_card.cpp:60-79 and the spec agree that NoCard is initial), and
the constructors build `p_logconf` and the card driver fresh. -/
def sd_task_init : SdTaskState :=
  { state := 0, p_logconf := logger_config_init, p_logger_config := none,
    sd := sd_card_init }

/-- Embedding of one cycle of `task_sd_card::run` (task_sd_card.cpp:97-269).
State 0 waits for a card; state 1 mounts it; state 2 reads the configuration
file and publishes the configuration if `is_valid()`, else unmounts, clears
the share and parks in state 9; state 3 opens a sequenced data file, writes
the preamble and CSV header on success (failure unmounts and returns to 0,
leaving the share untouched); state 4 drains the text queue through
`putchar` and falls back to state 0 (unmounting and clearing the share) when
the card disappears; state 9 waits for card removal; any other state resets
to 0.  In state 2 the configuration file is opened and closed on the card
driver; on the error-free medium the close leaves `dir_file_result = FR_OK`,
so those reads are not tracked in `sd`.

The precision with which floats are printed is immaterial here and fixed to
the written bytes via `prec`; the preamble dereferences the shared pointer
for the ms-per-sample value (a NULL dereference in C when the share is
empty — `none` is mapped to 0, and the reachability theorems show the share
is never empty in state 3). -/
def task_sd_card_step (cap : Nat) (env : SdTaskEnv) (s : SdTaskState) : SdTaskState :=
  if s.state = 0 then
    (if env.card_present then { s with state := 1 } else s)
  else if s.state = 1 then
    (if ¬ env.card_present then { s with state := 0 }
     else if env.mount_ok then
       { s with state := 2, sd := sd_card.mount true s.sd }
     else { s with state := 0, sd := sd_card.mount false s.sd })
  else if s.state = 2 then
    (if env.card_present then
       let lc := logger_config.read s.p_logconf env.read_config
       if lc.config_valid then
         { s with state := 3, p_logconf := lc, p_logger_config := some lc }
       else
         { s with state := 9, p_logconf := lc, p_logger_config := none,
                  sd := sd_card.unmount s.sd }
     else { s with state := 0, p_logger_config := none })
  else if s.state = 3 then
    (if ¬ env.card_present then { s with state := 0, p_logger_config := none }
     else if env.fnum = 65535 then
       { s with state := 0, sd := sd_card.unmount s.sd }
     else
       let ms := match s.p_logger_config with
                 | some c => c.ms_per_reading
                 | none => 0
       let sd1 := { s.sd with dir_file_result := env.open_result, file_bytes := [] }
       let sd2 := sd_putchars cap sd1
         (data_file_preamble ms ++ write_header s.p_logger_config)
       { s with state := 4, sd := sd2 })
  else if s.state = 4 then
    let sd1 := sd_putchars cap s.sd env.queue
    (if ¬ env.card_present then
       { s with state := 0, sd := sd_card.unmount sd1, p_logger_config := none }
     else { s with sd := sd1 })
  else if s.state = 9 then
    (if ¬ env.card_present then { s with state := 0 } else s)
  else { s with state := 0 }

/-- A run of the card task: fold the per-cycle step over a list of
per-cycle environments, from a given start state. -/
def sd_task_run (cap : Nat) (s : SdTaskState) (envs : List SdTaskEnv) : SdTaskState :=
  envs.foldl (fun t e => task_sd_card_step cap e t) s

/-- Events of the spec's §4.3 transition table. -/
inductive SdEvent where
  | cardAbsent | idle | cardDetected | mountFail | mountOk
  | configInvalid | configValid | openFail | openOk
deriving DecidableEq, Repr

/-- Modelled from the spec: the transition table of §4.3, one row per table
line, as (state, trigger, next-state) triples with the state numbering of
the code (NoCard 0, Mounting 1, ReadingConfig 2, OpeningFile 3, Streaming 4,
BadConfig 9).  This is the spec side of claim C4, to be compared with the
embedded step function. -/
def spec_transition_table : List (Nat × SdEvent × Nat) :=
  [(0, SdEvent.cardDetected, 1),
   (0, SdEvent.idle, 0),
   (1, SdEvent.cardAbsent, 0),
   (1, SdEvent.mountFail, 0),
   (1, SdEvent.mountOk, 2),
   (2, SdEvent.cardAbsent, 0),
   (2, SdEvent.configInvalid, 9),
   (2, SdEvent.configValid, 3),
   (3, SdEvent.cardAbsent, 0),
   (3, SdEvent.openFail, 0),
   (3, SdEvent.openOk, 4),
   (4, SdEvent.cardAbsent, 0),
   (4, SdEvent.idle, 4),
   (9, SdEvent.cardAbsent, 0)]

/-- Classification of a cycle's environment into the spec's trigger, by the
tests the code performs in each state (card detect first, then the
state-specific outcome).  In state 9 with the card still present no table
row applies; the classification `idle` is returned and the table simply has
no row for it (the state is terminal until removal). -/
def sd_event_of (s : SdTaskState) (env : SdTaskEnv) : SdEvent :=
  if s.state = 0 then
    (if env.card_present then SdEvent.cardDetected else SdEvent.idle)
  else if s.state = 1 then
    (if ¬ env.card_present then SdEvent.cardAbsent
     else if env.mount_ok then SdEvent.mountOk else SdEvent.mountFail)
  else if s.state = 2 then
    (if ¬ env.card_present then SdEvent.cardAbsent
     else if (logger_config.read s.p_logconf env.read_config).config_valid then
       SdEvent.configValid
     else SdEvent.configInvalid)
  else if s.state = 3 then
    (if ¬ env.card_present then SdEvent.cardAbsent
     else if env.fnum = 65535 then SdEvent.openFail else SdEvent.openOk)
  else
    (if ¬ env.card_present then SdEvent.cardAbsent else SdEvent.idle)

/-! ## Sample Producer task (`task_sd_daq.cpp`) -/

/-- Delay a task cycle ends with: `delay_from_for` in RTOS ticks or
`delay_from_for_ms` in milliseconds. -/
inductive DaqDelay where
  | forTicks (n : Nat)
  | forMs (n : Nat)
deriving DecidableEq, Repr

/-- Embedding of one iteration of the `for (;;)` loop of `task_sd_daq::run`
(task_sd_daq.cpp:115-129): when the shared configuration pointer is non-null
the task acquires one row (appending it to the text queue) and waits the
configured number of ticks per sample; when it is null the task does
nothing and waits 100 ms.  The returned list is what the cycle appends to
the SD-card text queue. -/
def task_sd_daq_cycle (cfg : Option LoggerConfigState) (get_data : Char → Int)
    (fpu : Int → Rat → Rat → Nat) (prec tickBits : Nat) : List Char × DaqDelay :=
  match cfg with
  | some c => (acquire_sd_data get_data fpu prec tickBits c.cols,
               DaqDelay.forTicks c.ticks_per_reading)
  | none => ([], DaqDelay.forMs 100)

/-! ## Sequenced data-file naming (`sdio_card.cpp`) -/

/-- Candidate file name built by `sd_card::open_new_data_file`
(sdio_card.cpp:566-586): the base name, the number's three digits zero-padded
(hundreds, tens, ones, each as `digit + '0'`), a dot, and the first three
characters of the extension. -/
def make_data_file_name (base ext : List Char) (number : Nat) : List Char :=
  base ++
  [Char.ofNat (number / 100 + 48),
   Char.ofNat (number % 100 / 10 + 48),
   Char.ofNat (number % 10 + 48)] ++
  ['.'] ++ ext.take 3

/-- Embedding of the probing loop of `sd_card::open_new_data_file`
(sdio_card.cpp:564-617): starting at `number`, with `fuel` probes remaining
out of the original 1000, `f_stat` each candidate (the environment's
`stat`); `FR_NO_FILE` means the name is free — open it and return the
number — `FR_OK` means it exists — try the next — and any other result
aborts with 0xFFFF.  Exhausting the 1000 numbers also yields 0xFFFF. -/
def ondf_probe (stat : List Char → Nat) (base ext : List Char) :
    Nat → Nat → Nat
  | 0, _ => 65535
  | fuel + 1, number =>
      let r := stat (make_data_file_name base ext number)
      if r = FR_NO_FILE then number
      else if r = FR_OK then ondf_probe stat base ext fuel (number + 1)
      else 65535

/-- Embedding of `sd_card::open_new_data_file` (sdio_card.cpp:549-618):
0xFFFF when no card is mounted, otherwise 1000 probes starting at 0. -/
def open_new_data_file (mounted : Bool) (stat : List Char → Nat)
    (base ext : List Char) : Nat :=
  if ¬ mounted then 65535 else ondf_probe stat base ext 1000 0

/-- The `f_stat` of a filesystem holding the set (list) of names `fs`:
`FR_OK` when the file exists, `FR_NO_FILE` when it does not (the error-free
medium raises no other code). -/
def fs_stat (fs : List (List Char)) (name : List Char) : Nat :=
  if name ∈ fs then FR_OK else FR_NO_FILE

/-- One data-file open on a filesystem `fs`: run `open_new_data_file`; a
successful probe opens the file with `FA_CREATE_ALWAYS` (sdio_card.cpp:448),
so the chosen name now exists.  Returns the number and the new filesystem. -/
def open_seq (base ext : List Char) (fs : List (List Char)) :
    Nat × List (List Char) :=
  let r := open_new_data_file true (fs_stat fs) base ext
  if r = 65535 then (r, fs)
  else (r, make_data_file_name base ext r :: fs)

/-- Opening `n` data files in immediate succession without deletions:
returns the final filesystem and the list of names actually created. -/
def open_many (base ext : List Char) : Nat → List (List Char) →
    List (List Char) × List (List Char)
  | 0, fs => (fs, [])
  | n + 1, fs =>
      let r := open_seq base ext fs
      let rest := open_many base ext n r.2
      (rest.1, if r.1 = 65535 then rest.2
               else make_data_file_name base ext r.1 :: rest.2)

/-- Base name for data files (task_sd_card.h:59). -/
def DATA_F_NAME : List Char := "data_".toList

/-- Extension for data files (task_sd_card.h:69). -/
def DATA_F_EXT : List Char := "csv".toList

/-! ## Theorems for claim C10 -/

/-- Helper: a successful `peek` leaves the file pointer unchanged. -/
theorem sd_card_peek_pos (s : SdCardRead) :
    ((sd_card.peek s).2).the_file.pos = s.the_file.pos := by
  unfold sd_card.peek f_read1 f_lseek f_tell
  by_cases hmt : s.mounted <;>
  by_cases hdr : s.dir_file_result = FR_OK <;>
  by_cases hp : s.the_file.pos < s.the_file.content.length <;>
  simp [hmt, hdr, hp]

/-- C10: if `sd_card::peek()` returns a nonzero character `c`, the read
position is not advanced and the immediately following `sd_card::getchar()`
returns the same `c`; and both methods are total, returning 0 (instead of
blocking or failing) when the card is unmounted, a prior error is latched, or
the end of the file has been reached. -/
theorem peek_getchar_agree :
    (∀ s c, (sd_card.peek s).1 = c → c ≠ '\x00' →
      ((sd_card.peek s).2).the_file.pos = s.the_file.pos ∧
      (sd_card.getchar ((sd_card.peek s).2)).1 = c) ∧
    (∀ s, (¬ s.mounted ∨ s.dir_file_result ≠ FR_OK ∨ f_eof s.the_file) →
      (sd_card.getchar s).1 = '\x00') ∧
    (∀ s, (¬ s.mounted ∨ s.dir_file_result ≠ FR_OK ∨ f_eof s.the_file) →
      (sd_card.peek s).1 = '\x00') := by
  refine ⟨?_, ?_, ?_⟩
  · intro s c hpk hc
    refine ⟨sd_card_peek_pos s, ?_⟩
    unfold sd_card.peek f_read1 f_lseek f_tell at hpk ⊢
    unfold sd_card.getchar f_read1 f_eof
    by_cases hmt : s.mounted <;>
    by_cases hdr : s.dir_file_result = FR_OK <;>
    by_cases hp : s.the_file.pos < s.the_file.content.length <;>
    simp [hmt, hdr, hp] at hpk ⊢ <;>
    first
      | (exact absurd hpk.symm hc)
      | (exact hpk)
      | (rw [if_neg (by omega)]; exact hpk)
  · intro s hs
    unfold sd_card.getchar
    rcases hs with h | h | h <;> simp [h]
  · intro s hs
    unfold sd_card.peek f_read1
    rcases hs with h | h | h
    · simp [h]
    · simp [h]
    · have hp : ¬ s.the_file.pos < s.the_file.content.length := by
        simp [f_eof] at h; omega
      by_cases hmt : s.mounted <;>
      by_cases hdr : s.dir_file_result = FR_OK <;>
      simp [hmt, hdr, hp]

/-! ## Theorems for claims C3 and C9 -/

/-- Helper: the label loop copies exactly the stream's prefix of
non-terminating characters, truncated to the buffer capacity. -/
theorem read_label_takeWhile :
    ∀ (s : List Char) (n : Nat),
      (read_label n s).1 = (s.takeWhile (fun c => ¬ is_label_end c)).take n := by
  intro s
  induction s with
  | nil => intro n; cases n <;> simp [read_label]
  | cons c rest ih =>
      intro n
      cases n with
      | zero => simp [read_label]
      | succ m =>
          by_cases hc : is_label_end c
          · simp [read_label, hc, List.takeWhile]
          · simp [read_label, hc, List.takeWhile, ih m]

/-- C9: for every channel configuration line, `read_channel_config` stores at
most `MAX_COL_LABEL_LEN` (24) characters of the column label — longer labels
are truncated, not rejected — and the stored label is exactly the text from
the opening quote up to (excluding) the first closing quote ('"' or '\''),
carriage return, line feed, or end of stream (where `getchar` yields 0), so
a missing closing quote is tolerated. -/
theorem read_channel_config_label :
    ∀ s : List Char,
      (read_channel_config s).1.p_label.length ≤ MAX_COL_LABEL_LEN ∧
      (read_channel_config s).1.p_label =
        ((label_source s).takeWhile (fun c => ¬ is_label_end c)).take
          MAX_COL_LABEL_LEN := by
  intro s
  constructor
  · show (read_label MAX_COL_LABEL_LEN (label_source s)).1.length ≤ MAX_COL_LABEL_LEN
    rw [read_label_takeWhile]
    exact le_trans (List.length_take_le _ _) (le_refl _)
  · show (read_label MAX_COL_LABEL_LEN (label_source s)).1 = _
    exact read_label_takeWhile (label_source s) MAX_COL_LABEL_LEN

/-- Counterexample for C3 as stated: a `logger_config` whose previous read
left `config_valid = true` (for example after a valid card was read and
removed) calls `read` again and the open fails; the C function returns at
once and the flag is still true, not false. -/
theorem read_open_fail_counterexample :
    ¬ (∀ cfg : LoggerConfigState,
        (logger_config.read cfg none).config_valid = false) := by
  intro h
  have h2 := h { config_valid := true, ticks_per_reading := 100,
                 ms_per_reading := 100, cols := [] }
  simp [logger_config.read] at h2

/-- C3 (amended): if `logger_config::read` fails to open the file it returns
immediately, leaving the whole configuration object (validity flag included)
unchanged — so the flag is false afterwards only when it was false before —
and whenever the file opens and is read through, the validity flag is true
afterwards. -/
theorem read_validity :
    (∀ cfg, logger_config.read cfg none = cfg) ∧
    (∀ cfg content, (logger_config.read cfg (some content)).config_valid = true) := by
  constructor
  · intro cfg; rfl
  · intro cfg content; rfl

/-! ## Theorems for claims C5 and C6 -/

/-- Helper: characters that are neither commas, double quotes nor newlines
do not affect the field count outside quotes. -/
theorem csv_fields_skip :
    ∀ (a b : List Char),
      (∀ ch ∈ a, ch ≠ ',' ∧ ch ≠ '"' ∧ ch ≠ '\n') →
      csv_fields (a ++ b) false = csv_fields b false := by
  intro a
  induction a with
  | nil => intro b _; rfl
  | cons c rest ih =>
      intro b h
      have hc := h c (List.mem_cons_self c rest)
      have hr : ∀ ch ∈ rest, ch ≠ ',' ∧ ch ≠ '"' ∧ ch ≠ '\n' :=
        fun ch hm => h ch (List.mem_cons_of_mem c hm)
      simp [csv_fields, hc.1, hc.2.1, hc.2.2, ih b hr]

/-- Helper: inside quotes, characters other than double quotes and newlines
(commas included) do not affect the field count. -/
theorem csv_fields_quoted :
    ∀ (a b : List Char),
      (∀ ch ∈ a, ch ≠ '"' ∧ ch ≠ '\n') →
      csv_fields (a ++ b) true = csv_fields b true := by
  intro a
  induction a with
  | nil => intro b _; rfl
  | cons c rest ih =>
      intro b h
      have hc := h c (List.mem_cons_self c rest)
      have hr : ∀ ch ∈ rest, ch ≠ '"' ∧ ch ≠ '\n' :=
        fun ch hm => h ch (List.mem_cons_of_mem c hm)
      by_cases hcomma : c = ','
      · simp [csv_fields, hcomma, ih b hr]
      · simp [csv_fields, hc.1, hc.2, hcomma, ih b hr]

/-- Helper: every character of the digit table is a digit or hex letter, in
particular not a comma, double quote or newline. -/
theorem emstr_digit_safe (d : Nat) :
    emstr_digit d ≠ ',' ∧ emstr_digit d ≠ '"' ∧ emstr_digit d ≠ '\n' := by
  unfold emstr_digit
  split <;> exact (by decide)

/-- Helper: the int64 digit loop only emits digit characters. -/
theorem emstream_digits_rev_safe :
    ∀ n, ∀ ch ∈ emstream_digits_rev n, ch ≠ ',' ∧ ch ≠ '"' ∧ ch ≠ '\n' := by
  intro n
  induction n using Nat.strong_induction_on with
  | _ n ih =>
      intro ch hch
      rw [emstream_digits_rev] at hch
      by_cases h : n < 10
      · simp [h] at hch
        exact hch ▸ emstr_digit_safe n
      · simp [h] at hch
        rcases hch with h1 | h1
        · exact h1 ▸ emstr_digit_safe (n % 10)
        · exact ih (n / 10) (Nat.div_lt_self (by omega) (by omega)) ch h1

/-- Helper: `Char.ofNat` either keeps the codepoint or falls back to 0. -/
theorem char_ofNat_toNat_or (m : Nat) :
    (Char.ofNat m).toNat = m ∨ (Char.ofNat m).toNat = 0 := by
  unfold Char.ofNat
  split
  · left; rfl
  · right; rfl

/-- Helper: a character built as `Char.ofNat (d + 48)` has codepoint `d + 48`
or 0, so it is never a comma (44), double quote (34) or newline (10). -/
theorem char_digit_safe (d : Nat) :
    Char.ofNat (d + 48) ≠ ',' ∧ Char.ofNat (d + 48) ≠ '"' ∧
    Char.ofNat (d + 48) ≠ '\n' := by
  refine ⟨fun heq => ?_, fun heq => ?_, fun heq => ?_⟩
  · have h := char_ofNat_toNat_or (d + 48)
    rw [heq, show ','.toNat = 44 from rfl] at h
    omega
  · have h := char_ofNat_toNat_or (d + 48)
    rw [heq, show '"'.toNat = 34 from rfl] at h
    omega
  · have h := char_ofNat_toNat_or (d + 48)
    rw [heq, show '\n'.toNat = 10 from rfl] at h
    omega

/-- Helper: the fraction loop only emits digit characters. -/
theorem float_frac_digits_safe :
    ∀ p frac, ∀ ch ∈ float_frac_digits p frac,
      ch ≠ ',' ∧ ch ≠ '"' ∧ ch ≠ '\n' := by
  intro p
  induction p with
  | zero => intro frac ch hch; simp [float_frac_digits] at hch
  | succ q ih =>
      intro frac ch hch
      simp only [float_frac_digits, List.mem_cons] at hch
      rcases hch with h1 | h1
      · have h48 : '0'.toNat = 48 := rfl
        rw [h48] at h1
        exact h1 ▸ char_digit_safe ((frac * 10) >>> 24)
      · exact ih (frac * 10 % 2 ^ 24) ch h1

/-- Helper: the int64 printer only emits digit characters. -/
theorem emstream_print_int_safe :
    ∀ n, ∀ ch ∈ emstream_print_int n, ch ≠ ',' ∧ ch ≠ '"' ∧ ch ≠ '\n' := by
  intro n ch hch
  rw [emstream_print_int, List.mem_reverse] at hch
  exact emstream_digits_rev_safe n ch hch

/-- Helper: the sign/integer/dot/fraction body of the float printer contains
no comma, double quote or newline. -/
theorem float_body_safe :
    ∀ prec neg ip fp, ∀ ch ∈ float_body prec neg ip fp,
      ch ≠ ',' ∧ ch ≠ '"' ∧ ch ≠ '\n' := by
  intro prec neg ip fp ch hch
  unfold float_body at hch
  cases neg <;> by_cases hip : ip = 0 <;> by_cases hfp : fp = 0 <;>
    simp [hip, hfp] at hch <;>
    (repeat' (rcases hch with hch | hch)) <;>
    first
      | decide
      | exact emstream_print_int_safe _ _ hch
      | exact float_frac_digits_safe _ _ _ hch

/-- Helper: every character emitted by `emstream::operator<<(float)` is a
sign, digit, dot, or letter from "NaN"/"inf"/"tiny" — never a comma, double
quote or newline, for every bit pattern and precision. -/
theorem emstream_print_float_safe :
    ∀ prec bits, ∀ ch ∈ emstream_print_float prec bits,
      ch ≠ ',' ∧ ch ≠ '"' ∧ ch ≠ '\n' := by
  intro prec bits ch hch
  unfold emstream_print_float at hch
  split at hch
  · split at hch <;> simp at hch <;>
      (rcases hch with rfl | rfl | rfl <;> decide)
  · split at hch
    · split at hch <;> simp at hch
      · rcases hch with rfl | rfl | rfl | rfl <;> decide
      · rcases hch with rfl | rfl | rfl <;> decide
    · split at hch
      · simp at hch
        rcases hch with rfl | rfl | rfl | rfl <;> decide
      · exact float_body_safe _ _ _ _ ch hch

/-- Helper: one reduction step of the field counter on a leading comma
outside quotes. -/
theorem csv_fields_comma (rest : List Char) :
    csv_fields (',' :: rest) false = 1 + csv_fields rest false := rfl

/-- Helper: one reduction step of the field counter on a double quote. -/
theorem csv_fields_quote (rest : List Char) (b : Bool) :
    csv_fields ('"' :: rest) b = csv_fields rest (! b) := rfl

/-- Helper: the column loop of `acquire_sd_data` in closed form. -/
theorem acquire_cols_join (get_data : Char → Int) (fpu : Int → Rat → Rat → Nat)
    (prec : Nat) :
    ∀ cols : List LoggerColCfg,
      acquire_cols get_data fpu prec cols =
        (cols.map (fun col =>
          ',' :: emstream_print_float prec
            (fpu (get_data col.command) col.slope col.offset))).flatten := by
  intro cols
  induction cols with
  | nil => rfl
  | cons col rest ih => simp [acquire_cols, ih]

/-- C6: `acquire_sd_data` reads, for every configured column taken in list
(insertion) order, one raw value with that column's command character, and
appends to the byte queue the printed calibrated value `raw * slope + offset`
— `fpu raw slope offset` being the single-precision multiply-add unit
applied to exactly those three operands, and its result printed by the
embedded `emstream` float printer — each value preceded by a comma, the whole
row prefixed by the printed tick timestamp and terminated by the '\n' line
separator. -/
theorem acquire_sd_data_row :
    ∀ (get_data : Char → Int) (fpu : Int → Rat → Rat → Nat)
      (prec tickBits : Nat) (cols : List LoggerColCfg),
      acquire_sd_data get_data fpu prec tickBits cols =
        emstream_print_float prec tickBits ++
        (cols.map (fun col =>
          ',' :: emstream_print_float prec
            (fpu (get_data col.command) col.slope col.offset))).flatten ++
        ['\n'] := by
  intro get_data fpu prec tickBits cols
  unfold acquire_sd_data
  rw [acquire_cols_join]

/-- Helper: a character the label loop would not terminate on is neither a
double quote nor a newline. -/
theorem label_ok_char (ch : Char) (h : is_label_end ch = false) :
    ch ≠ '"' ∧ ch ≠ '\n' := by
  simp [is_label_end] at h
  exact ⟨h.2.2.1, h.2.1⟩

/-- Helper: field count of the header's column part plus newline. -/
theorem header_cols_fields :
    ∀ cols : List LoggerColCfg,
      (∀ col ∈ cols, ∀ ch ∈ col.p_label, is_label_end ch = false) →
      csv_fields (header_cols cols ++ ['\n']) false = cols.length + 1 := by
  intro cols
  induction cols with
  | nil => intro _; rfl
  | cons col rest ih =>
      intro h
      have hcol := h col (List.mem_cons_self col rest)
      have hrest : ∀ c ∈ rest, ∀ ch ∈ c.p_label, is_label_end ch = false :=
        fun c hm => h c (List.mem_cons_of_mem col hm)
      have hassoc :
          (header_cols (col :: rest)) ++ ['\n'] =
            ',' :: '"' :: (col.p_label ++ ('"' :: (header_cols rest ++ ['\n']))) := by
        simp [header_cols]
      have hq : csv_fields (col.p_label ++ ('"' :: (header_cols rest ++ ['\n']))) true =
          csv_fields ('"' :: (header_cols rest ++ ['\n'])) true := by
        apply csv_fields_quoted
        intro ch hm
        exact label_ok_char ch (hcol ch hm)
      rw [hassoc, csv_fields_comma, csv_fields_quote]
      simp only [Bool.not_false]
      rw [hq, csv_fields_quote]
      simp only [Bool.not_true]
      rw [ih hrest]
      simp only [List.length_cons]
      omega

/-- Helper: field count of the data-row's column part plus newline. -/
theorem acquire_cols_fields (get_data : Char → Int) (fpu : Int → Rat → Rat → Nat)
    (prec : Nat) :
    ∀ cols : List LoggerColCfg,
      csv_fields (acquire_cols get_data fpu prec cols ++ ['\n']) false =
        cols.length + 1 := by
  intro cols
  induction cols with
  | nil => rfl
  | cons col rest ih =>
      have hassoc :
          acquire_cols get_data fpu prec (col :: rest) ++ ['\n'] =
            ',' :: (emstream_print_float prec
                (fpu (get_data col.command) col.slope col.offset) ++
              (acquire_cols get_data fpu prec rest ++ ['\n'])) := by
        simp [acquire_cols]
      rw [hassoc, csv_fields_comma,
          csv_fields_skip _ _ (emstream_print_float_safe prec _), ih]
      simp only [List.length_cons]
      omega

/-- C5: for every configuration whose column labels are as the parser
produces them (free of quotes, CR, LF and NUL), both the header line written
by `write_header` and every data row written by `acquire_sd_data` — for any
raw readings, any FPU results and any timestamp — consist of exactly N+1
comma-separated fields (reading commas CSV-style, outside double quotes):
the Time field or timestamp followed by one field per configured column. -/
theorem header_and_row_fields :
    ∀ cfg : LoggerConfigState,
      (∀ col ∈ cfg.cols, ∀ ch ∈ col.p_label, is_label_end ch = false) →
      ∀ (get_data : Char → Int) (fpu : Int → Rat → Rat → Nat)
        (prec tickBits : Nat),
        fieldsOf (write_header (some cfg)) = cfg.cols.length + 1 ∧
        fieldsOf (acquire_sd_data get_data fpu prec tickBits cfg.cols) =
          cfg.cols.length + 1 := by
  intro cfg hlab get_data fpu prec tickBits
  constructor
  · show csv_fields (['T', 'i', 'm', 'e'] ++ header_cols cfg.cols ++ ['\n']) false = _
    rw [List.append_assoc,
        csv_fields_skip ['T', 'i', 'm', 'e'] _ (by decide)]
    exact header_cols_fields cfg.cols hlab
  · show csv_fields (emstream_print_float prec tickBits ++
      acquire_cols get_data fpu prec cfg.cols ++ ['\n']) false = _
    rw [List.append_assoc,
        csv_fields_skip _ _ (emstream_print_float_safe prec tickBits)]
    exact acquire_cols_fields get_data fpu prec cfg.cols

/-- Witness for C5: on the spec's example configuration the header line has
exactly 3 comma-separated fields. -/
theorem header_and_row_fields_witness :
    (∀ col ∈ demo_config.cols, ∀ ch ∈ col.p_label, is_label_end ch = false) ∧
    fieldsOf (write_header (some demo_config)) = 3 :=
  ⟨by decide,
   (header_and_row_fields demo_config (by decide)
     (fun _ => 0) (fun _ _ _ => 0) 3 0).1⟩

/-- Witness for C10: a concrete mounted card with the open file containing
the single byte 'A' and the pointer at 0; `peek` returns 'A'. -/
theorem peek_getchar_agree_witness :
    ((sd_card.peek ⟨true, FR_OK, ⟨['A'], 0⟩⟩).1 = 'A' → ('A' : Char) ≠ '\x00' →
      ((sd_card.peek ⟨true, FR_OK, ⟨['A'], 0⟩⟩).2).the_file.pos = (0 : Nat) ∧
      (sd_card.getchar ((sd_card.peek ⟨true, FR_OK, ⟨['A'], 0⟩⟩).2)).1 = 'A') ∧
    (sd_card.peek ⟨true, FR_OK, ⟨['A'], 0⟩⟩).1 = 'A' :=
  ⟨fun h hc => peek_getchar_agree.1 ⟨true, FR_OK, ⟨['A'], 0⟩⟩ 'A' h hc,
   by decide⟩

/-! ## Theorems for claims C8 and C7 -/

/-- C8: on every cycle in which the shared configuration pointer is null,
the Sample Producer appends nothing to the byte queue (no acquisition) and
delays 100 ms from its last wake time instead of the configured tick count
per sample — a null configuration is the idle path, not an error; with a
configuration present it acquires a row and waits the configured period. -/
theorem daq_null_config_backoff :
    (∀ (get_data : Char → Int) (fpu : Int → Rat → Rat → Nat) (prec tickBits : Nat),
      task_sd_daq_cycle none get_data fpu prec tickBits = ([], DaqDelay.forMs 100)) ∧
    (∀ (c : LoggerConfigState) (get_data : Char → Int)
       (fpu : Int → Rat → Rat → Nat) (prec tickBits : Nat),
      (task_sd_daq_cycle (some c) get_data fpu prec tickBits).2 =
        DaqDelay.forTicks c.ticks_per_reading) :=
  ⟨fun _ _ _ _ => rfl, fun _ _ _ _ _ => rfl⟩

/-- Helper: the probing loop returns the first free number when everything
below it exists. -/
theorem ondf_probe_first_free (stat : List Char → Nat) (base ext : List Char) :
    ∀ (fuel start n : Nat), start ≤ n → n < start + fuel →
      (∀ m, start ≤ m → m < n → stat (make_data_file_name base ext m) = FR_OK) →
      stat (make_data_file_name base ext n) = FR_NO_FILE →
      ondf_probe stat base ext fuel start = n := by
  intro fuel
  induction fuel with
  | zero => intro start n h1 h2 _ _; omega
  | succ f ih =>
      intro start n h1 h2 hfull hfree
      by_cases heq : start = n
      · subst heq
        simp [ondf_probe, hfree]
      · have hlt : start < n := by omega
        have hok : stat (make_data_file_name base ext start) = FR_OK :=
          hfull start (le_refl _) hlt
        simp only [ondf_probe, hok]
        simp only [if_true]
        exact ih (start + 1) n (by omega) (by omega)
          (fun m hm1 hm2 => hfull m (by omega) hm2) hfree

/-- Helper: the probing loop aborts when every probed number exists. -/
theorem ondf_probe_exhaust (stat : List Char → Nat) (base ext : List Char) :
    ∀ (fuel start : Nat),
      (∀ m, start ≤ m → m < start + fuel →
        stat (make_data_file_name base ext m) = FR_OK) →
      ondf_probe stat base ext fuel start = 65535 := by
  intro fuel
  induction fuel with
  | zero => intro start _; rfl
  | succ f ih =>
      intro start hfull
      have hok : stat (make_data_file_name base ext start) = FR_OK :=
        hfull start (le_refl _) (by omega)
      simp only [ondf_probe, hok]
      simp only [if_true]
      exact ih (start + 1) (fun m hm1 hm2 => hfull m (by omega) (by omega))

/-- Helper: the probing loop aborts on the first result code that is neither
`FR_OK` nor `FR_NO_FILE`. -/
theorem ondf_probe_error (stat : List Char → Nat) (base ext : List Char) :
    ∀ (fuel start n : Nat), start ≤ n → n < start + fuel →
      (∀ m, start ≤ m → m < n → stat (make_data_file_name base ext m) = FR_OK) →
      stat (make_data_file_name base ext n) ≠ FR_OK →
      stat (make_data_file_name base ext n) ≠ FR_NO_FILE →
      ondf_probe stat base ext fuel start = 65535 := by
  intro fuel
  induction fuel with
  | zero => intro start n h1 h2 _ _ _; omega
  | succ f ih =>
      intro start n h1 h2 hfull hne1 hne2
      by_cases heq : start = n
      · subst heq
        simp only [ondf_probe]
        rw [if_neg hne2, if_neg hne1]
      · have hlt : start < n := by omega
        have hok : stat (make_data_file_name base ext start) = FR_OK :=
          hfull start (le_refl _) hlt
        simp only [ondf_probe, hok]
        simp only [if_true]
        exact ih (start + 1) n (by omega) (by omega)
          (fun m hm1 hm2 => hfull m (by omega) hm2) hne1 hne2

/-- Helper: a number returned by the probing loop (other than the failure
code) was stat'ed as free. -/
theorem ondf_probe_success_free (stat : List Char → Nat) (base ext : List Char) :
    ∀ (fuel start r : Nat), ondf_probe stat base ext fuel start = r →
      r ≠ 65535 → stat (make_data_file_name base ext r) = FR_NO_FILE := by
  intro fuel
  induction fuel with
  | zero =>
      intro start r hr hne
      simp [ondf_probe] at hr
      exact absurd hr.symm hne
  | succ f ih =>
      intro start r hr hne
      simp only [ondf_probe] at hr
      by_cases h1 : stat (make_data_file_name base ext start) = FR_NO_FILE
      · rw [if_pos h1] at hr
        subst hr; exact h1
      · rw [if_neg h1] at hr
        by_cases h2 : stat (make_data_file_name base ext start) = FR_OK
        · rw [if_pos h2] at hr
          exact ih (start + 1) r hr hne
        · rw [if_neg h2] at hr
          exact absurd hr.symm hne

/-- Helper: the numbers created by a run of successive opens are names that
did not exist before, and are pairwise distinct. -/
theorem open_many_distinct (base ext : List Char) :
    ∀ (n : Nat) (fs : List (List Char)),
      (∀ nm ∈ (open_many base ext n fs).2, nm ∉ fs) ∧
      (open_many base ext n fs).2.Nodup := by
  intro n
  induction n with
  | zero => intro fs; constructor
            · intro nm hnm; simp [open_many] at hnm
            · simp [open_many]
  | succ k ih =>
      intro fs
      by_cases hfail : open_new_data_file true (fs_stat fs) base ext = 65535
      · have hseq : open_seq base ext fs =
            (65535, fs) := by simp [open_seq, hfail]
        constructor
        · intro nm hnm
          simp only [open_many, hseq, if_true] at hnm
          exact (ih fs).1 nm hnm
        · simp only [open_many, hseq, if_true]
          exact (ih fs).2
      · have hfree : fs_stat fs (make_data_file_name base ext
            (open_new_data_file true (fs_stat fs) base ext)) = FR_NO_FILE := by
          apply ondf_probe_success_free (fs_stat fs) base ext 1000 0
          · simp [open_new_data_file]
          · exact hfail
        have hnotin : make_data_file_name base ext
            (open_new_data_file true (fs_stat fs) base ext) ∉ fs := by
          intro hin
          simp [fs_stat, hin, FR_OK, FR_NO_FILE] at hfree
        have hseq : open_seq base ext fs =
            (open_new_data_file true (fs_stat fs) base ext,
             make_data_file_name base ext
               (open_new_data_file true (fs_stat fs) base ext) :: fs) := by
          simp [open_seq, hfail]
        have hrest := ih (make_data_file_name base ext
          (open_new_data_file true (fs_stat fs) base ext) :: fs)
        constructor
        · intro nm hnm
          simp only [open_many, hseq] at hnm
          rw [if_neg hfail] at hnm
          rcases List.mem_cons.mp hnm with rfl | hnm2
          · exact hnotin
          · intro hin
            exact (hrest.1 nm hnm2) (List.mem_cons_of_mem _ hin)
        · simp only [open_many, hseq]
          rw [if_neg hfail]
          refine List.nodup_cons.mpr ⟨?_, hrest.2⟩
          intro hmem
          exact (hrest.1 _ hmem) (List.mem_cons_self _ _)

/-- C7: `open_new_data_file(base, ext)` probes the candidate names
`base ++ zero-padded-3-digit-number ++ '.' ++ ext` for numbers 0, 1, 2, ...
in increasing order: it returns the first number whose file does not exist
(opening that file), returns 0xFFFF when all 1000 bounded attempts find
existing files, and returns 0xFFFF as soon as `f_stat` yields an error other
than file-not-found; consequently opening any number of new files in
succession without deletions creates pairwise distinct names. -/
theorem open_new_data_file_spec :
    (∀ (fs : List (List Char)) (base ext : List Char) (n : Nat), n < 1000 →
      (∀ m, m < n → make_data_file_name base ext m ∈ fs) →
      make_data_file_name base ext n ∉ fs →
      open_new_data_file true (fs_stat fs) base ext = n) ∧
    (∀ (fs : List (List Char)) (base ext : List Char),
      (∀ m, m < 1000 → make_data_file_name base ext m ∈ fs) →
      open_new_data_file true (fs_stat fs) base ext = 65535) ∧
    (∀ (stat : List Char → Nat) (base ext : List Char) (n : Nat), n < 1000 →
      (∀ m, m < n → stat (make_data_file_name base ext m) = FR_OK) →
      stat (make_data_file_name base ext n) ≠ FR_OK →
      stat (make_data_file_name base ext n) ≠ FR_NO_FILE →
      open_new_data_file true stat base ext = 65535) ∧
    (∀ (base ext : List Char) (n : Nat) (fs : List (List Char)),
      (open_many base ext n fs).2.Nodup) := by
  refine ⟨?_, ?_, ?_, ?_⟩
  · intro fs base ext n hn hbelow hfree
    show ondf_probe (fs_stat fs) base ext 1000 0 = n
    apply ondf_probe_first_free (fs_stat fs) base ext 1000 0 n (by omega) (by omega)
    · intro m _ hm
      simp [fs_stat, hbelow m hm]
    · simp [fs_stat, hfree]
  · intro fs base ext hall
    show ondf_probe (fs_stat fs) base ext 1000 0 = 65535
    apply ondf_probe_exhaust
    intro m _ hm
    simp [fs_stat, hall m (by omega)]
  · intro stat base ext n hn hbelow hne1 hne2
    show ondf_probe stat base ext 1000 0 = 65535
    exact ondf_probe_error stat base ext 1000 0 n (by omega) (by omega)
      (fun m _ hm => hbelow m hm) hne1 hne2
  · intro base ext n fs
    exact (open_many_distinct base ext n fs).2

/-- Witness for C7: on a card already holding "data_000.csv", the next open
picks number 1 (name "data_001.csv"). -/
theorem open_new_data_file_spec_witness :
    open_new_data_file true
      (fs_stat [make_data_file_name DATA_F_NAME DATA_F_EXT 0])
      DATA_F_NAME DATA_F_EXT = 1 :=
  open_new_data_file_spec.1 [make_data_file_name DATA_F_NAME DATA_F_EXT 0]
    DATA_F_NAME DATA_F_EXT 1 (by omega)
    (by intro m hm
        interval_cases m
        · exact List.mem_cons_self _ _)
    (by decide)

/-! ## Theorems for claim C1 -/

/-- Helper: a single `putchar` on a ready card with a non-full buffer keeps
the card ready and the buffer non-full, loses no byte (file plus buffer
grows by exactly the character), and syncs exactly when the buffer reached
capacity. -/
theorem putchar_spec (cap : Nat) (sd : SdCardWrite) (c : Char)
    (hr : sd_card.ready_to_send sd = true) (hb : sd.buffer.length < cap) :
    sd_card.ready_to_send (sd_card.putchar cap sd c) = true ∧
    (sd_card.putchar cap sd c).buffer.length < cap ∧
    (sd_card.putchar cap sd c).file_bytes ++ (sd_card.putchar cap sd c).buffer =
      sd.file_bytes ++ sd.buffer ++ [c] ∧
    (sd_card.putchar cap sd c).buffer.length = (sd.buffer.length + 1) % cap ∧
    (sd_card.putchar cap sd c).syncs = sd.syncs + (sd.buffer.length + 1) / cap := by
  have hcap : 0 < cap := by omega
  unfold sd_card.putchar
  rw [if_neg (by simp [hr])]
  by_cases hfull : cap ≤ (sd.buffer ++ [c]).length
  · have hlen : sd.buffer.length + 1 = cap := by
      simp [List.length_append] at hfull; omega
    rw [if_pos hfull]
    refine ⟨by simp [sd_card.ready_to_send, FR_OK,
        (by simp [sd_card.ready_to_send] at hr; exact hr.1 : sd.mounted = true)],
      by simpa using hcap, by simp, ?_, ?_⟩
    · simp [hlen, Nat.mod_self]
    · simp [hlen, Nat.div_self hcap]
  · have hlen : sd.buffer.length + 1 < cap := by
      simp [List.length_append] at hfull; omega
    rw [if_neg hfull]
    refine ⟨hr, by simpa using hlen, by simp, ?_, ?_⟩
    · simp [Nat.mod_eq_of_lt hlen]
    · simp [Nat.div_eq_of_lt hlen]

/-- Helper: draining a byte list through `putchar` on a ready card loses no
byte and performs exactly one sync per buffer fill: the bytes committed to
the file plus the bytes left in the buffer are the old contents plus the
whole list, the leftover is `(buffered + queued) mod capacity`, and the sync
count grows by `(buffered + queued) / capacity`. -/
theorem drain_spec (cap : Nat) :
    ∀ (q : List Char) (sd : SdCardWrite),
      sd_card.ready_to_send sd = true → sd.buffer.length < cap →
      sd_card.ready_to_send (sd_putchars cap sd q) = true ∧
      (sd_putchars cap sd q).buffer.length < cap ∧
      (sd_putchars cap sd q).file_bytes ++ (sd_putchars cap sd q).buffer =
        sd.file_bytes ++ sd.buffer ++ q ∧
      (sd_putchars cap sd q).buffer.length = (sd.buffer.length + q.length) % cap ∧
      (sd_putchars cap sd q).syncs = sd.syncs + (sd.buffer.length + q.length) / cap := by
  intro q
  induction q with
  | nil =>
      intro sd hr hb
      refine ⟨hr, hb, by simp [sd_putchars], ?_, ?_⟩
      · simp [sd_putchars, Nat.mod_eq_of_lt hb]
      · simp [sd_putchars, Nat.div_eq_of_lt hb]
  | cons c q ih =>
      intro sd hr hb
      have hcap : 0 < cap := by omega
      have hp := putchar_spec cap sd c hr hb
      have hstep : sd_putchars cap sd (c :: q) =
          sd_putchars cap (sd_card.putchar cap sd c) q := rfl
      have hih := ih (sd_card.putchar cap sd c) hp.1 hp.2.1
      refine ⟨hstep ▸ hih.1, hstep ▸ hih.2.1, ?_, ?_, ?_⟩
      · rw [hstep, hih.2.2.1, hp.2.2.1]
        simp
      · rw [hstep, hih.2.2.2.1, hp.2.2.2.1, Nat.mod_add_mod]
        simp only [List.length_cons]
        congr 1
        omega
      · rw [hstep, hih.2.2.2.2, hp.2.2.2.2, hp.2.2.2.1]
        simp only [List.length_cons]
        have hsplit : sd.buffer.length + (q.length + 1) =
            cap * ((sd.buffer.length + 1) / cap) +
              ((sd.buffer.length + 1) % cap + q.length) := by
          have := Nat.div_add_mod (sd.buffer.length + 1) cap
          omega
        rw [hsplit, Nat.mul_add_div hcap]
        omega

/-- C1 (amended): in the Streaming state, every cycle with the card present
writes all bytes currently available in the byte queue into the card driver
and stays in Streaming; on a ready card the bytes committed to the file plus
the bytes held in the driver's sector buffer account for every queued byte,
and an `f_sync` commit happens exactly once per `SD_SECTORS_TO_WRITE *
_MAX_SS` bytes accumulated — there is no time-based forced flush (that code
is commented out, task_sd_card.cpp:229-235), so bytes short of a full buffer
stay uncommitted for as long as the queue is idle. -/
theorem streaming_cycle_flush :
    ∀ (cap : Nat) (env : SdTaskEnv) (s : SdTaskState),
      s.state = 4 → env.card_present = true →
      sd_card.ready_to_send s.sd = true → s.sd.buffer.length < cap →
      (task_sd_card_step cap env s).state = 4 ∧
      (task_sd_card_step cap env s).sd.file_bytes ++
          (task_sd_card_step cap env s).sd.buffer =
        s.sd.file_bytes ++ s.sd.buffer ++ env.queue ∧
      (task_sd_card_step cap env s).sd.buffer.length =
        (s.sd.buffer.length + env.queue.length) % cap ∧
      (task_sd_card_step cap env s).sd.syncs =
        s.sd.syncs + (s.sd.buffer.length + env.queue.length) / cap := by
  intro cap env s hs hcard hr hb
  have hd := drain_spec cap env.queue s.sd hr hb
  have hstep : task_sd_card_step cap env s =
      { s with sd := sd_putchars cap s.sd env.queue } := by
    unfold task_sd_card_step
    rw [if_neg (by omega), if_neg (by omega), if_neg (by omega),
        if_neg (by omega), if_pos hs]
    simp [hcard]
  rw [hstep]
  exact ⟨hs, hd.2.2.1, hd.2.2.2.1, hd.2.2.2.2⟩

/-- Witness for C1 (amended): buffer capacity 4, one byte already buffered,
five bytes in the queue: the cycle stays in Streaming, commits the first
four bytes with one sync, and leaves two bytes buffered. -/
theorem streaming_cycle_flush_witness :
    (task_sd_card_step 4
        { card_present := true, mount_ok := true, read_config := none,
          fnum := 0, open_result := 0, queue := ['1', '2', '3', '4', '5'] }
        { state := 4, p_logconf := logger_config_init, p_logger_config := none,
          sd := { mounted := true, dir_file_result := 0, file_bytes := [],
                  buffer := ['x'], syncs := 0 } }).state = 4 ∧
    (task_sd_card_step 4
        { card_present := true, mount_ok := true, read_config := none,
          fnum := 0, open_result := 0, queue := ['1', '2', '3', '4', '5'] }
        { state := 4, p_logconf := logger_config_init, p_logger_config := none,
          sd := { mounted := true, dir_file_result := 0, file_bytes := [],
                  buffer := ['x'], syncs := 0 } }).sd.file_bytes ++
      (task_sd_card_step 4
        { card_present := true, mount_ok := true, read_config := none,
          fnum := 0, open_result := 0, queue := ['1', '2', '3', '4', '5'] }
        { state := 4, p_logconf := logger_config_init, p_logger_config := none,
          sd := { mounted := true, dir_file_result := 0, file_bytes := [],
                  buffer := ['x'], syncs := 0 } }).sd.buffer =
      [] ++ ['x'] ++ ['1', '2', '3', '4', '5'] ∧
    (task_sd_card_step 4
        { card_present := true, mount_ok := true, read_config := none,
          fnum := 0, open_result := 0, queue := ['1', '2', '3', '4', '5'] }
        { state := 4, p_logconf := logger_config_init, p_logger_config := none,
          sd := { mounted := true, dir_file_result := 0, file_bytes := [],
                  buffer := ['x'], syncs := 0 } }).sd.buffer.length =
      (1 + 5) % 4 ∧
    (task_sd_card_step 4
        { card_present := true, mount_ok := true, read_config := none,
          fnum := 0, open_result := 0, queue := ['1', '2', '3', '4', '5'] }
        { state := 4, p_logconf := logger_config_init, p_logger_config := none,
          sd := { mounted := true, dir_file_result := 0, file_bytes := [],
                  buffer := ['x'], syncs := 0 } }).sd.syncs = 0 + (1 + 5) / 4 :=
  streaming_cycle_flush 4
    { card_present := true, mount_ok := true, read_config := none,
      fnum := 0, open_result := 0, queue := ['1', '2', '3', '4', '5'] }
    { state := 4, p_logconf := logger_config_init, p_logger_config := none,
      sd := { mounted := true, dir_file_result := 0, file_bytes := [],
              buffer := ['x'], syncs := 0 } }
    rfl rfl (by decide) (by decide)

set_option maxRecDepth 4096 in
/-- Counterexample for C1 as stated: with five bytes sitting in the card
driver's buffer, a hundred consecutive Streaming cycles with an idle queue
(each at least the cycle's 1 ms delay apart) perform not a single `f_sync`
and write nothing to the file, and even a card-absent cycle afterwards
unmounts without committing them — there is no time-based flush, so those
bytes do not survive card removal. -/
theorem streaming_no_timed_flush_counterexample :
    (sd_task_run 8192
        { state := 4, p_logconf := logger_config_init,
          p_logger_config := some logger_config_init,
          sd := { mounted := true, dir_file_result := 0, file_bytes := [],
                  buffer := ['d', 'a', 't', 'a', '!'], syncs := 0 } }
        (List.replicate 100
          { card_present := true, mount_ok := true, read_config := none,
            fnum := 0, open_result := 0, queue := [] })).sd.syncs = 0 ∧
    (sd_task_run 8192
        { state := 4, p_logconf := logger_config_init,
          p_logger_config := some logger_config_init,
          sd := { mounted := true, dir_file_result := 0, file_bytes := [],
                  buffer := ['d', 'a', 't', 'a', '!'], syncs := 0 } }
        (List.replicate 100
          { card_present := true, mount_ok := true, read_config := none,
            fnum := 0, open_result := 0, queue := [] })).sd.file_bytes = [] ∧
    (sd_task_run 8192
        { state := 4, p_logconf := logger_config_init,
          p_logger_config := some logger_config_init,
          sd := { mounted := true, dir_file_result := 0, file_bytes := [],
                  buffer := ['d', 'a', 't', 'a', '!'], syncs := 0 } }
        (List.replicate 100
          { card_present := true, mount_ok := true, read_config := none,
            fnum := 0, open_result := 0, queue := [] })).state = 4 ∧
    (task_sd_card_step 8192
        { card_present := false, mount_ok := false, read_config := none,
          fnum := 0, open_result := 0, queue := [] }
        (sd_task_run 8192
          { state := 4, p_logconf := logger_config_init,
            p_logger_config := some logger_config_init,
            sd := { mounted := true, dir_file_result := 0, file_bytes := [],
                    buffer := ['d', 'a', 't', 'a', '!'], syncs := 0 } }
          (List.replicate 100
            { card_present := true, mount_ok := true, read_config := none,
              fnum := 0, open_result := 0, queue := [] }))).sd.file_bytes = [] := by
  decide

/-! ## Theorems for claims C2 and C4 -/

/-- Helper: one cycle of the card task preserves the invariant that the
shared configuration pointer is non-null whenever the machine is in state 3
(OpeningFile) or 4 (Streaming). -/
theorem step_preserves_ptr (cap : Nat) (env : SdTaskEnv) (s : SdTaskState)
    (hP : (s.state = 3 ∨ s.state = 4) → s.p_logger_config ≠ none) :
    ((task_sd_card_step cap env s).state = 3 ∨
      (task_sd_card_step cap env s).state = 4) →
    (task_sd_card_step cap env s).p_logger_config ≠ none := by
  unfold task_sd_card_step
  dsimp only
  split_ifs <;> intro hx <;> simp_all

/-- Helper: the state 3/4 pointer invariant holds along every run. -/
theorem run_preserves_ptr (cap : Nat) :
    ∀ (envs : List SdTaskEnv) (s : SdTaskState),
      ((s.state = 3 ∨ s.state = 4) → s.p_logger_config ≠ none) →
      ((sd_task_run cap s envs).state = 3 ∨ (sd_task_run cap s envs).state = 4) →
      (sd_task_run cap s envs).p_logger_config ≠ none := by
  intro envs
  induction envs with
  | nil => intro s h; exact h
  | cons e rest ih =>
      intro s h
      exact ih (task_sd_card_step cap e s) (step_preserves_ptr cap e s h)

/-- Counterexample for C2 as stated: from power-up, insert a card that
mounts, read a configuration that passes `is_valid()`, then let
`open_new_data_file` fail (0xFFFF): the machine is back in NoCard (state 0)
but the shared configuration pointer was never cleared on that transition
(task_sd_card.cpp:201-207 unmounts and transitions without a
`p_logger_config->put (NULL)`), so "non-null iff OpeningFile/Streaming"
fails at this reachable state. -/
theorem logger_pointer_counterexample :
    ¬ ((sd_task_run 512 sd_task_init
          [{ card_present := true, mount_ok := true, read_config := some [],
             fnum := 65535, open_result := 0, queue := [] },
           { card_present := true, mount_ok := true, read_config := some [],
             fnum := 65535, open_result := 0, queue := [] },
           { card_present := true, mount_ok := true, read_config := some [],
             fnum := 65535, open_result := 0, queue := [] },
           { card_present := true, mount_ok := true, read_config := some [],
             fnum := 65535, open_result := 0, queue := [] }]).p_logger_config ≠ none ↔
        ((sd_task_run 512 sd_task_init
          [{ card_present := true, mount_ok := true, read_config := some [],
             fnum := 65535, open_result := 0, queue := [] },
           { card_present := true, mount_ok := true, read_config := some [],
             fnum := 65535, open_result := 0, queue := [] },
           { card_present := true, mount_ok := true, read_config := some [],
             fnum := 65535, open_result := 0, queue := [] },
           { card_present := true, mount_ok := true, read_config := some [],
             fnum := 65535, open_result := 0, queue := [] }]).state = 3 ∨
         (sd_task_run 512 sd_task_init
          [{ card_present := true, mount_ok := true, read_config := some [],
             fnum := 65535, open_result := 0, queue := [] },
           { card_present := true, mount_ok := true, read_config := some [],
             fnum := 65535, open_result := 0, queue := [] },
           { card_present := true, mount_ok := true, read_config := some [],
             fnum := 65535, open_result := 0, queue := [] },
           { card_present := true, mount_ok := true, read_config := some [],
             fnum := 65535, open_result := 0, queue := [] }]).state = 4)) := by
  decide

/-- C2 (amended): along every run from power-up the shared configuration
pointer is non-null whenever the machine is in OpeningFile (3) or
Streaming (4); every card-absent transition out of ReadingConfig,
OpeningFile or Streaming sets the pointer to null, as does the
invalid-configuration transition — but the open-failure transition from
OpeningFile back to NoCard leaves the pointer published, so a non-null
pointer does not imply being in OpeningFile or Streaming. -/
theorem logger_pointer_invariant :
    (∀ (cap : Nat) (envs : List SdTaskEnv),
      ((sd_task_run cap sd_task_init envs).state = 3 ∨
        (sd_task_run cap sd_task_init envs).state = 4) →
      (sd_task_run cap sd_task_init envs).p_logger_config ≠ none) ∧
    (∀ (cap : Nat) (env : SdTaskEnv) (s : SdTaskState),
      env.card_present = false →
      (s.state = 2 ∨ s.state = 3 ∨ s.state = 4) →
      (task_sd_card_step cap env s).p_logger_config = none) ∧
    (∀ (cap : Nat) (env : SdTaskEnv) (s : SdTaskState),
      s.state = 2 → env.card_present = true →
      (logger_config.read s.p_logconf env.read_config).config_valid = false →
      (task_sd_card_step cap env s).p_logger_config = none) := by
  refine ⟨?_, ?_, ?_⟩
  · intro cap envs
    apply run_preserves_ptr cap envs sd_task_init
    intro h
    simp [sd_task_init] at h
  · intro cap env s hcard hs
    unfold task_sd_card_step
    rcases hs with h | h | h <;> simp [h, hcard]
  · intro cap env s hs hcard hval
    unfold task_sd_card_step
    simp [hs, hcard, hval]

/-- Witness for C2 (amended): after card insertion, a successful mount and a
configuration read that validates, the machine is in state 3 and the pointer
is indeed non-null. -/
theorem logger_pointer_invariant_witness :
    ((sd_task_run 512 sd_task_init
        [{ card_present := true, mount_ok := true, read_config := some [],
           fnum := 65535, open_result := 0, queue := [] },
         { card_present := true, mount_ok := true, read_config := some [],
           fnum := 65535, open_result := 0, queue := [] },
         { card_present := true, mount_ok := true, read_config := some [],
           fnum := 65535, open_result := 0, queue := [] }]).state = 3 ∨
      (sd_task_run 512 sd_task_init
        [{ card_present := true, mount_ok := true, read_config := some [],
           fnum := 65535, open_result := 0, queue := [] },
         { card_present := true, mount_ok := true, read_config := some [],
           fnum := 65535, open_result := 0, queue := [] },
         { card_present := true, mount_ok := true, read_config := some [],
           fnum := 65535, open_result := 0, queue := [] }]).state = 4) ∧
    (sd_task_run 512 sd_task_init
        [{ card_present := true, mount_ok := true, read_config := some [],
           fnum := 65535, open_result := 0, queue := [] },
         { card_present := true, mount_ok := true, read_config := some [],
           fnum := 65535, open_result := 0, queue := [] },
         { card_present := true, mount_ok := true, read_config := some [],
           fnum := 65535, open_result := 0, queue := [] }]).p_logger_config ≠ none :=
  ⟨Or.inl (by decide),
   logger_pointer_invariant.1 512
     [{ card_present := true, mount_ok := true, read_config := some [],
        fnum := 65535, open_result := 0, queue := [] },
      { card_present := true, mount_ok := true, read_config := some [],
        fnum := 65535, open_result := 0, queue := [] },
      { card_present := true, mount_ok := true, read_config := some [],
        fnum := 65535, open_result := 0, queue := [] }]
     (Or.inl (by decide))⟩

/-- C4: from every state other than NoCard (Mounting 1, ReadingConfig 2,
OpeningFile 3, Streaming 4, BadConfig 9), a cycle that detects no card
transitions to NoCard (0) within that single cycle; every (state, trigger)
pair of the spec's transition table has exactly one row; and whenever the
table has a row for the current state and the cycle's trigger (as classified
by the code's own tests), the embedded step function moves to exactly that
row's next state. -/
theorem sd_fsm_card_absent_total :
    (∀ (cap : Nat) (env : SdTaskEnv) (s : SdTaskState),
      (s.state = 1 ∨ s.state = 2 ∨ s.state = 3 ∨ s.state = 4 ∨ s.state = 9) →
      env.card_present = false →
      (task_sd_card_step cap env s).state = 0) ∧
    (∀ row ∈ spec_transition_table,
      (spec_transition_table.filter
        (fun r => r.1 == row.1 && r.2.1 == row.2.1)).length = 1) ∧
    (∀ (cap : Nat) (env : SdTaskEnv) (s : SdTaskState) (next : Nat),
      (s.state, sd_event_of s env, next) ∈ spec_transition_table →
      (task_sd_card_step cap env s).state = next) := by
  refine ⟨?_, ?_, ?_⟩
  · intro cap env s hs hcard
    unfold task_sd_card_step
    rcases hs with h | h | h | h | h <;> simp [h, hcard]
  · decide
  · intro cap env s next hmem
    by_cases h0 : s.state = 0
    · by_cases hc : env.card_present
      · rw [h0, show sd_event_of s env = SdEvent.cardDetected from
            by simp [sd_event_of, h0, hc]] at hmem
        simp [spec_transition_table, Prod.ext_iff] at hmem
        subst hmem
        unfold task_sd_card_step
        simp [h0, hc]
      · rw [h0, show sd_event_of s env = SdEvent.idle from
            by simp [sd_event_of, h0, hc]] at hmem
        simp [spec_transition_table, Prod.ext_iff] at hmem
        subst hmem
        unfold task_sd_card_step
        simp [h0, hc]
    · by_cases h1 : s.state = 1
      · by_cases hc : env.card_present
        · by_cases hm : env.mount_ok
          · rw [h1, show sd_event_of s env = SdEvent.mountOk from
                by simp [sd_event_of, h0, h1, hc, hm]] at hmem
            simp [spec_transition_table, Prod.ext_iff] at hmem
            subst hmem
            unfold task_sd_card_step
            simp [h0, h1, hc, hm]
          · rw [h1, show sd_event_of s env = SdEvent.mountFail from
                by simp [sd_event_of, h0, h1, hc, hm]] at hmem
            simp [spec_transition_table, Prod.ext_iff] at hmem
            subst hmem
            unfold task_sd_card_step
            simp [h0, h1, hc, hm]
        · rw [h1, show sd_event_of s env = SdEvent.cardAbsent from
              by simp [sd_event_of, h0, h1, hc]] at hmem
          simp [spec_transition_table, Prod.ext_iff] at hmem
          subst hmem
          unfold task_sd_card_step
          simp [h0, h1, hc]
      · by_cases h2 : s.state = 2
        · by_cases hc : env.card_present
          · by_cases hv :
              (logger_config.read s.p_logconf env.read_config).config_valid
            · rw [h2, show sd_event_of s env = SdEvent.configValid from
                  by simp [sd_event_of, h0, h1, h2, hc, hv]] at hmem
              simp [spec_transition_table, Prod.ext_iff] at hmem
              subst hmem
              unfold task_sd_card_step
              simp [h0, h1, h2, hc, hv]
            · rw [h2, show sd_event_of s env = SdEvent.configInvalid from
                  by simp [sd_event_of, h0, h1, h2, hc, hv]] at hmem
              simp [spec_transition_table, Prod.ext_iff] at hmem
              subst hmem
              unfold task_sd_card_step
              simp [h0, h1, h2, hc, hv]
          · rw [h2, show sd_event_of s env = SdEvent.cardAbsent from
                by simp [sd_event_of, h0, h1, h2, hc]] at hmem
            simp [spec_transition_table, Prod.ext_iff] at hmem
            subst hmem
            unfold task_sd_card_step
            simp [h0, h1, h2, hc]
        · by_cases h3 : s.state = 3
          · by_cases hc : env.card_present
            · by_cases hf : env.fnum = 65535
              · rw [h3, show sd_event_of s env = SdEvent.openFail from
                    by simp [sd_event_of, h0, h1, h2, h3, hc, hf]] at hmem
                simp [spec_transition_table, Prod.ext_iff] at hmem
                subst hmem
                unfold task_sd_card_step
                simp [h0, h1, h2, h3, hc, hf]
              · rw [h3, show sd_event_of s env = SdEvent.openOk from
                    by simp [sd_event_of, h0, h1, h2, h3, hc, hf]] at hmem
                simp [spec_transition_table, Prod.ext_iff] at hmem
                subst hmem
                unfold task_sd_card_step
                simp [h0, h1, h2, h3, hc, hf]
            · rw [h3, show sd_event_of s env = SdEvent.cardAbsent from
                  by simp [sd_event_of, h0, h1, h2, h3, hc]] at hmem
              simp [spec_transition_table, Prod.ext_iff] at hmem
              subst hmem
              unfold task_sd_card_step
              simp [h0, h1, h2, h3, hc]
          · by_cases h4 : s.state = 4
            · by_cases hc : env.card_present
              · rw [h4, show sd_event_of s env = SdEvent.idle from
                    by simp [sd_event_of, h0, h1, h2, h3, h4, hc]] at hmem
                simp [spec_transition_table, Prod.ext_iff] at hmem
                subst hmem
                unfold task_sd_card_step
                simp [h0, h1, h2, h3, h4, hc]
              · rw [h4, show sd_event_of s env = SdEvent.cardAbsent from
                    by simp [sd_event_of, h0, h1, h2, h3, h4, hc]] at hmem
                simp [spec_transition_table, Prod.ext_iff] at hmem
                subst hmem
                unfold task_sd_card_step
                simp [h0, h1, h2, h3, h4, hc]
            · by_cases hc : env.card_present
              · rw [show sd_event_of s env = SdEvent.idle from
                    by simp [sd_event_of, h0, h1, h2, h3, h4, hc]] at hmem
                simp [spec_transition_table, Prod.ext_iff, h0, h1, h2, h3, h4]
                  at hmem
              · rw [show sd_event_of s env = SdEvent.cardAbsent from
                    by simp [sd_event_of, h0, h1, h2, h3, h4, hc]] at hmem
                by_cases h9 : s.state = 9
                · rw [h9] at hmem
                  simp [spec_transition_table, Prod.ext_iff] at hmem
                  subst hmem
                  unfold task_sd_card_step
                  simp [h0, h1, h2, h3, h4, h9, hc]
                · simp [spec_transition_table, Prod.ext_iff, h0, h1, h2, h3,
                    h4, h9] at hmem

/-- Witness for C4: a Streaming-state task that sees no card is in NoCard at
the end of the cycle. -/
theorem sd_fsm_card_absent_total_witness :
    (task_sd_card_step 512
      { card_present := false, mount_ok := false, read_config := none,
        fnum := 0, open_result := 0, queue := [] }
      { state := 4, p_logconf := logger_config_init,
        p_logger_config := some logger_config_init,
        sd := sd_card_init }).state = 0 :=
  sd_fsm_card_absent_total.1 512
    { card_present := false, mount_ok := false, read_config := none,
      fnum := 0, open_result := 0, queue := [] }
    { state := 4, p_logconf := logger_config_init,
      p_logger_config := some logger_config_init, sd := sd_card_init }
    (Or.inr (Or.inr (Or.inr (Or.inl rfl)))) rfl
